import Mathlib

/-!
Shallow embedding of the CCPanel vehicle-dashboard backend (src/dev/main.py)
and proofs about its telemetry acquisition, log rotation, fault-code reading,
control/radio mutation and alerting logic.

Python floats are modelled as rationals (ℚ); Python `round(x, 1)` is modelled
as round-half-even at one decimal place; Python `int(x)` is truncation toward
zero.  Python dicts keyed by strings are modelled as association lists with
Python's update semantics (replace the value at an existing key, append new
keys).  Exceptions are modelled explicitly: a diagnostic channel query either
yields a value, reports a null response, or raises.
-/

namespace CCPanel

/-- Round-half-even to the nearest integer, the rounding Python's `round`
uses. -/
def roundHalfEven (x : ℚ) : ℤ :=
  if x - ⌊x⌋ < 1/2 then ⌊x⌋
  else if x - ⌊x⌋ > 1/2 then ⌊x⌋ + 1
  else if ⌊x⌋ % 2 = 0 then ⌊x⌋ else ⌊x⌋ + 1

/-- Python `round(x, 1)`: round-half-even at one decimal place. -/
def round1 (x : ℚ) : ℚ := (roundHalfEven (10 * x) : ℚ) / 10

/-- Python `int(x)`: truncation toward zero. -/
def pyTrunc (x : ℚ) : ℤ := if 0 ≤ x then ⌊x⌋ else ⌈x⌉

/-- A Python dict with string keys, as an association list. -/
abbrev Dict (α : Type) := List (String × α)

/-- Python `d[k] = v`: replace the value at `k` if the key is present,
otherwise append the binding. -/
def dictSet {α : Type} (d : Dict α) (k : String) (v : α) : Dict α :=
  match d with
  | [] => [(k, v)]
  | (k', v') :: rest => if k' = k then (k, v) :: rest else (k', v') :: dictSet rest k v

/-- Python `d.get(k)`: `some` of the first binding for `k`, else `none`. -/
def dictGet {α : Type} (d : Dict α) (k : String) : Option α :=
  match d with
  | [] => none
  | (k', v) :: rest => if k' = k then some v else dictGet rest k

/-- The initial value of the global `sensor_data` dict (main.py lines 42-52). -/
def sensor_data₀ : Dict ℚ :=
  [("turbo_pressure", 1.2), ("air_fuel_ratio", 14.7), ("rpm", 0), ("speed", 0),
   ("fuel_consumption", 0), ("motor_load", 0), ("motor_temp", 0), ("oil_temp", 0),
   ("battery_voltage", 0)]

/-- The nine telemetry channel ids of the snapshot. -/
def channel_ids : List String :=
  ["turbo_pressure", "air_fuel_ratio", "rpm", "speed", "fuel_consumption",
   "motor_load", "motor_temp", "oil_temp", "battery_voltage"]

/-- Outcome of one `connection.query(cmd)` call: a value (the magnitude of the
response), a null response (`response.is_null()`), or a raised exception. -/
inductive QueryOutcome where
  | val (v : ℚ)
  | null
  | err
deriving DecidableEq, Repr

/-- One outcome per diagnostic channel queried by `get_obd_data`. -/
structure OBDOutcomes where
  rpm : QueryOutcome
  speed : QueryOutcome
  motor_load : QueryOutcome
  motor_temp : QueryOutcome
  oil_temp : QueryOutcome
  intake_pressure : QueryOutcome
  fuel_level : QueryOutcome
  battery_voltage : QueryOutcome
  air_fuel_ratio : QueryOutcome
deriving Repr

/-- The nine `random.random()` draws consumed by one `simulate_obd_data` call,
in source order. -/
structure SimRands where
  r1 : ℚ
  r2 : ℚ
  r3 : ℚ
  r4 : ℚ
  r5 : ℚ
  r6 : ℚ
  r7 : ℚ
  r8 : ℚ
  r9 : ℚ

/-- `simulate_obd_data` (main.py lines 262-273): overwrite all nine channels
with bounded pseudo-random values. -/
def simulate_obd_data (r : SimRands) (d : Dict ℚ) : Dict ℚ :=
  let d := dictSet d "turbo_pressure" (round1 (0.8 + r.r1 * 0.8))
  let d := dictSet d "air_fuel_ratio" (round1 (14.0 + r.r2 * 1.5))
  let d := dictSet d "rpm" ((pyTrunc (1500 + r.r3 * 2500) : ℚ))
  let d := dictSet d "speed" ((pyTrunc (60 + r.r4 * 80) : ℚ))
  let d := dictSet d "fuel_consumption" (round1 (6.0 + r.r5 * 3.0))
  let d := dictSet d "motor_load" ((pyTrunc (40 + r.r6 * 40) : ℚ))
  let d := dictSet d "motor_temp" ((pyTrunc (85 + r.r7 * 25) : ℚ))
  let d := dictSet d "oil_temp" ((pyTrunc (80 + r.r8 * 20) : ℚ))
  dictSet d "battery_voltage" (round1 (12.0 + r.r9 * 0.8))

/-- Result of a channel-reading step: `.ok` with the updated dict, or
`.error` with the dict as it stood when the query raised (the exception
propagates out of `get_obd_data`, which has no handler for these channels). -/
abbrev ObdRes := Except (Dict ℚ) (Dict ℚ)

/-- A channel stored via `int(response.value.magnitude)` with fallback 0
(rpm, speed, motor_load, motor_temp, oil_temp). -/
def stepInt (k : String) (o : QueryOutcome) (d : Dict ℚ) : ObdRes :=
  match o with
  | .err => .error d
  | .null => .ok (dictSet d k 0)
  | .val v => .ok (dictSet d k ((pyTrunc v : ℚ)))

/-- Intake pressure: kPa to bar via division by 100, rounded to 1 decimal;
fallback 0 (main.py lines 169-176). -/
def stepTurbo (o : QueryOutcome) (d : Dict ℚ) : ObdRes :=
  match o with
  | .err => .error d
  | .null => .ok (dictSet d "turbo_pressure" 0)
  | .val v => .ok (dictSet d "turbo_pressure" (round1 (v / 100)))

/-- Fuel level: percentage to estimated consumption `round(10 - p/10, 1)` when
`p > 0`, else 0; fallback 0 (main.py lines 178-190). -/
def stepFuel (o : QueryOutcome) (d : Dict ℚ) : ObdRes :=
  match o with
  | .err => .error d
  | .null => .ok (dictSet d "fuel_consumption" 0)
  | .val v =>
      .ok (dictSet d "fuel_consumption" (if v > 0 then round1 (10 - v / 10) else 0))

/-- Battery voltage: rounded to 1 decimal; fallback 0 (main.py lines 192-198). -/
def stepBattery (o : QueryOutcome) (d : Dict ℚ) : ObdRes :=
  match o with
  | .err => .error d
  | .null => .ok (dictSet d "battery_voltage" 0)
  | .val v => .ok (dictSet d "battery_voltage" (round1 v))

/-- Air-fuel ratio: this is the only channel whose query sits inside a
`try`/`except`, so a raised exception is caught and yields the stoichiometric
default 14.7, like a null response (main.py lines 200-209). -/
def stepAFR (o : QueryOutcome) (d : Dict ℚ) : Dict ℚ :=
  match o with
  | .err => dictSet d "air_fuel_ratio" 14.7
  | .null => dictSet d "air_fuel_ratio" 14.7
  | .val v => dictSet d "air_fuel_ratio" (round1 v)

/-- The connected acquisition path of `get_obd_data` (main.py lines 129-209):
the channels are read in source order; an uncaught exception anywhere stops
the sequence. -/
def obd_read (o : OBDOutcomes) (d : Dict ℚ) : ObdRes := do
  let d ← stepInt "rpm" o.rpm d
  let d ← stepInt "speed" o.speed d
  let d ← stepInt "motor_load" o.motor_load d
  let d ← stepInt "motor_temp" o.motor_temp d
  let d ← stepInt "oil_temp" o.oil_temp d
  let d ← stepTurbo o.intake_pressure d
  let d ← stepFuel o.fuel_level d
  let d ← stepBattery o.battery_voltage d
  pure (stepAFR o.air_fuel_ratio d)

/-- `get_obd_data` (main.py lines 122-209) acting on the `sensor_data` dict.
Returns the dict after the pass and whether an uncaught exception was raised
(which in the source propagates to the caller, leaving the dict with the
updates made so far). When not connected it delegates to `simulate_obd_data`. -/
def get_obd_data (connected : Bool) (sim : SimRands) (o : OBDOutcomes)
    (d : Dict ℚ) : Dict ℚ × Bool :=
  if connected then
    match obd_read o d with
    | .ok d' => (d', false)
    | .error d' => (d', true)
  else (simulate_obd_data sim d, false)

/-- A diagnostic trouble code entry as built by `get_dtc_codes`. -/
structure FaultCode where
  code : String
  title : String
  description : String
  time : String
deriving DecidableEq, Repr

/-- The fixed demo fault list returned when no diagnostic connection is
available (main.py lines 217-222); each entry is timestamped with the current
sampling time. -/
def demo_errors (now : String) : List FaultCode :=
  [⟨"P0300", "Rastgele Silindir Ateşleme Hatası",
    "Motorun silindirlerinden birinde veya birkaçında ateşleme hatası tespit edildi.", now⟩,
   ⟨"P0171", "Sistem Zayıf (Bank 1)",
    "Motorun yakıt sistemi çok fakir bir karışım sağlıyor.", now⟩,
   ⟨"P0420", "Katalitik Konvertör Verimliliği",
    "Katalitik konvertörün verimliliği eşik değerin altında.", now⟩,
   ⟨"P0455", "Emme Kontrol Sistemi Büyük Sızıntı",
    "Yakıt buharı emme kontrol sisteminde büyük bir sızıntı tespit edildi.", now⟩]

/-- The static DTC lookup table `dtc_descriptions` (main.py lines 236-246):
code ↦ (title, description). -/
def dtc_descriptions : List (String × String × String) :=
  [("P0300", "Rastgele Silindir Ateşleme Hatası",
    "Motorun silindirlerinden birinde veya birkaçında ateşleme hatası tespit edildi."),
   ("P0171", "Sistem Zayıf (Bank 1)",
    "Motorun yakıt sistemi çok fakir bir karışım sağlıyor."),
   ("P0420", "Katalitik Konvertör Verimliliği",
    "Katalitik konvertörün verimliliği eşik değerin altında."),
   ("P0455", "Emme Kontrol Sistemi Büyük Sızıntı",
    "Yakıt buharı emme kontrol sisteminde büyük bir sızıntı tespit edildi."),
   ("P0101", "MAF Sensörü Devre Aralığı/Performans",
    "Kütle hava akış sensöründe aralık veya performans sorunu."),
   ("P0135", "O2 Sensörü Isıtıcı Devresi (Bank 1, Sensör 1)",
    "Oksijen sensörü ısıtıcı devresinde arıza."),
   ("P0301", "Silindir 1 Ateşleme Hatası",
    "Silindir 1'de ateşleme hatası tespit edildi."),
   ("P0442", "Emme Kontrol Sistemi Küçük Sızıntı",
    "Yakıt buharı emme kontrol sisteminde küçük bir sızıntı tespit edildi."),
   ("P0500", "Hız Sensörü", "Araç hızı sensöründe arıza.")]

/-- `dtc_descriptions.get(code, generic)` (main.py lines 250-253): title and
description for a raw code, with the generic fallback for unknown codes. -/
def dtcLookup (c : String) : String × String :=
  match (dtc_descriptions.find? (fun e => e.1 = c)) with
  | some e => e.2
  | none => ("Hata Kodu " ++ c, "Tanımlanmamış hata kodu.")

/-- The fault entry built for one raw code (main.py lines 248-260). -/
def mkFault (now : String) (c : String) : FaultCode :=
  ⟨c, (dtcLookup c).1, (dtcLookup c).2, now⟩

/-- `get_dtc_codes` (main.py lines 211-260) as a function of the connection
state and the trouble-code query result (`none` models `response.is_null()`).
It returns the new value of the global `error_codes` list. -/
def get_dtc_codes (connected : Bool) (resp : Option (List String))
    (now : String) : List FaultCode :=
  if ¬connected then demo_errors now
  else
    match resp with
    | none => []
    | some codes => codes.map (mkFault now)

/-- A JSON value stored in `control_states`: the initial values are booleans,
but the socket handler can store `None`. -/
inductive JVal where
  | b (bb : Bool)
  | null
deriving DecidableEq, Repr

/-- The initial `control_states` dict (main.py lines 56-63). -/
def control_states₀ : Dict JVal :=
  [("light", .b true), ("seat_heating", .b false), ("seat_cooling", .b false),
   ("steering_heating", .b false), ("spotlight", .b false), ("screen_switch", .b false)]

/-- The POST `/api/control/<name>` handler `set_control` (main.py lines
325-337): `state?` is the request body's `state` field (`none` when absent).
Returns the new dict and whether the request succeeded (else 400, no
mutation). -/
def set_control (name : String) (state? : Option JVal) (cs : Dict JVal) :
    Dict JVal × Bool :=
  if (dictGet cs name).isSome then
    match state? with
    | some v => (dictSet cs name v, true)
    | none => (cs, false)
  else (cs, false)

/-- The socket `control_change` handler (main.py lines 401-412): reads
`data.get('control')` and `data.get('state')` (each `None` when absent) and,
if the control id is known, stores the state value — `None` included. -/
def handle_control_change (name? : Option String) (state? : Option JVal)
    (cs : Dict JVal) : Dict JVal :=
  match name? with
  | some n => if (dictGet cs n).isSome then dictSet cs n (state?.getD .null) else cs
  | none => cs

/-- The `radio_data` record (main.py lines 65-76). -/
structure RadioState where
  stations : List (String × String)
  current_station : ℤ
  is_playing : Bool
  volume : ℤ
deriving DecidableEq, Repr

/-- Initial radio state. -/
def radio_data₀ : RadioState :=
  ⟨[("Power FM 98.5", "98.5"), ("Best FM 95.7", "95.7"), ("Number 1 FM 92.0", "92.0"),
    ("Radyo D 90.8", "90.8"), ("Joy FM 94.3", "94.3")], 0, true, 70⟩

/-- POST `/api/radio/station` (main.py lines 343-351): accepts `station` iff
present and `0 <= station < len(stations)`; otherwise rejected, no mutation. -/
def set_radio_station (st? : Option ℤ) (r : RadioState) : RadioState × Bool :=
  match st? with
  | some s =>
      if 0 ≤ s ∧ s < r.stations.length then ({r with current_station := s}, true)
      else (r, false)
  | none => (r, false)

/-- POST `/api/radio/play` (main.py lines 353-361): accepts iff `playing` is
present. -/
def set_radio_play (p? : Option Bool) (r : RadioState) : RadioState × Bool :=
  match p? with
  | some b => ({r with is_playing := b}, true)
  | none => (r, false)

/-- POST `/api/radio/volume` (main.py lines 363-371): accepts `volume` iff
present and `0 <= volume <= 100`; otherwise rejected, no mutation. -/
def set_radio_volume (v? : Option ℤ) (r : RadioState) : RadioState × Bool :=
  match v? with
  | some v =>
      if 0 ≤ v ∧ v ≤ 100 then ({r with volume := v}, true)
      else (r, false)
  | none => (r, false)

/-- The socket `radio_change` handler (main.py lines 414-429): applies the
`station`, `playing` and `volume` fields of one message in turn, each with the
same validation as its POST counterpart. -/
def handle_radio_change (st? : Option ℤ) (p? : Option Bool) (v? : Option ℤ)
    (r : RadioState) : RadioState :=
  let r :=
    match st? with
    | some s =>
        if 0 ≤ s ∧ s < r.stations.length then {r with current_station := s} else r
    | none => r
  let r :=
    match p? with
    | some b => {r with is_playing := b}
    | none => r
  match v? with
  | some v => if 0 ≤ v ∧ v ≤ 100 then {r with volume := v} else r
  | none => r

/-- One `alert` event payload (main.py lines 286-297). -/
structure Alert where
  type : String
  message : String
  value : ℚ
deriving DecidableEq, Repr

/-- The high-temperature alert message. -/
def hiTempMsg : String := "Motor sıcaklığı kritik seviyede!"

/-- The low-voltage alert message. -/
def lowVoltMsg : String := "Akü voltajı düşük!"

/-- The alert events one fast-loop tick publishes for a given snapshot
(main.py lines 284-297): a high-temperature warning when `motor_temp > 100`,
then a low-voltage warning when `battery_voltage < 12.0`.  `none` models the
`KeyError` Python would raise on a snapshot missing either key. -/
def tick_alerts (d : Dict ℚ) : Option (List Alert) :=
  match dictGet d "motor_temp", dictGet d "battery_voltage" with
  | some mt, some bv =>
      some ((if mt > 100 then [⟨"warning", hiTempMsg, mt⟩] else []) ++
            (if bv < 12 then [⟨"warning", lowVoltMsg, bv⟩] else []))
  | _, _ => none

/-- State of the log rotator: the open file handle and `last_hour` (both keyed
by hour bucket), and the set of log files on disk, each identified by its hour
bucket (an absolute hour count; the `sensor_data_<YYYY-MM-DD_HH>.json` naming
is injective on hour buckets). -/
structure RotState where
  current_log_file : Option ℤ
  last_hour : Option ℤ
  files : List ℤ
deriving DecidableEq, Repr

/-- Observable side effects of one `rotate_logs` call: whether the previous
handle was closed, which file was opened, and which file was deleted. -/
structure RotEffects where
  closed_prev : Bool
  opened : Option ℤ
  deleted : Option ℤ
deriving DecidableEq, Repr

/-- `rotate_logs` (main.py lines 90-108): on an hour-bucket change, close the
previous handle, open (append-mode, creating if absent) the current hour's
file, and delete the file whose bucket is exactly two hours older if present;
otherwise do nothing. -/
def rotate_logs (now : ℤ) (s : RotState) : RotState × RotEffects :=
  if some now = s.last_hour then (s, ⟨false, none, none⟩)
  else
    let closedPrev := s.current_log_file.isSome
    let files₁ := if now ∈ s.files then s.files else now :: s.files
    let old := now - 2
    if old ∈ files₁ then
      (⟨some now, some now, files₁.filter (· ≠ old)⟩, ⟨closedPrev, some now, some old⟩)
    else
      (⟨some now, some now, files₁⟩, ⟨closedPrev, some now, none⟩)

/-- Run `rotate_logs` at each hour of a list in turn (simulated passage of
hour boundaries). -/
def run_rotations (hours : List ℤ) (s : RotState) : RotState :=
  hours.foldl (fun s h => (rotate_logs h s).1) s

/-- `log_sensor_data` (main.py lines 110-120): rotate, then write one entry to
the current log file and flush.  `write_ok = false` models the write raising
an `IOError`; there is no handler, so the exception propagates (second
component of the result). -/
def log_sensor_data (write_ok : Bool) (now : ℤ) (s : RotState) : RotState × Bool :=
  let s' := (rotate_logs now s).1
  match s'.current_log_file with
  | some _ => (s', !write_ok)
  | none => (s', false)

/-- The environment inputs consumed by one iteration of the `update_sensors`
loop body (main.py lines 275-299). -/
structure TickInput where
  connected : Bool
  sim : SimRands
  o : OBDOutcomes
  write_ok : Bool
  now : ℤ

/-- One iteration of the `update_sensors` loop body: acquire, then log.  The
body has no exception handler, so a raise in either step aborts the iteration
(third component: `true` iff the iteration raised). -/
def update_sensors_iter (i : TickInput) (d : Dict ℚ) (s : RotState) :
    Dict ℚ × RotState × Bool :=
  let a := get_obd_data i.connected i.sim i.o d
  if a.2 then (a.1, s, true)
  else
    let l := log_sensor_data i.write_ok i.now s
    (a.1, l.1, l.2)

/-- The `while True` telemetry loop run on a list of tick inputs; returns the
number of iterations completed.  An uncaught exception propagates out of the
loop body and terminates the loop thread, so no later tick runs. -/
def update_sensors_loop (inputs : List TickInput) (d : Dict ℚ) (s : RotState) : ℕ :=
  match inputs with
  | [] => 0
  | i :: rest =>
      let r := update_sensors_iter i d s
      if r.2.2 then 0 else 1 + update_sensors_loop rest r.1 r.2.1

/-- No uncaught exception in the connected acquisition path: no channel other
than the (try-wrapped) air-fuel-ratio one raises. -/
def obd_ok (o : OBDOutcomes) : Prop :=
  o.rpm ≠ .err ∧ o.speed ≠ .err ∧ o.motor_load ≠ .err ∧ o.motor_temp ≠ .err ∧
  o.oil_temp ≠ .err ∧ o.intake_pressure ≠ .err ∧ o.fuel_level ≠ .err ∧
  o.battery_voltage ≠ .err

instance (o : OBDOutcomes) : Decidable (obd_ok o) := by
  unfold obd_ok; infer_instance

/-- Clean-start rotator invariant: every log file on disk is for the tracked
hour or the hour before it. -/
def rot_inv (s : RotState) : Prop :=
  ∀ h ∈ s.files, some h = s.last_hour ∨ some (h + 1) = s.last_hour

instance (s : RotState) : Decidable (rot_inv s) := by
  unfold rot_inv; infer_instance

/-- All channel queries report a null response. -/
def o_allnull : OBDOutcomes :=
  ⟨.null, .null, .null, .null, .null, .null, .null, .null, .null⟩

/-- All channel queries raise. -/
def o_allerr : OBDOutcomes :=
  ⟨.err, .err, .err, .err, .err, .err, .err, .err, .err⟩

/-- A concrete draw of the simulated randomness (all draws 0). -/
def sim₀ : SimRands := ⟨0, 0, 0, 0, 0, 0, 0, 0, 0⟩

/-- A sequence of sampling passes applied to the `sensor_data` dict: each pass
is `get_obd_data` with its connection state, random draws and channel
outcomes. -/
def run_passes (ps : List (Bool × SimRands × OBDOutcomes)) (d : Dict ℚ) : Dict ℚ :=
  ps.foldl (fun d p => (get_obd_data p.1 p.2.1 p.2.2 d).1) d

/-- A key is bound in the dict carried by either continuation of a channel
step (both the dict a raise leaves behind and the dict of a completed step). -/
def allSome (k : String) : ObdRes → Prop
  | .ok d => (dictGet d k).isSome
  | .error d => (dictGet d k).isSome

/-- A simulated-mode tick whose log write succeeds. -/
def tick_ok : TickInput := ⟨false, sim₀, o_allnull, true, 0⟩

/-- A simulated-mode tick whose log write raises. -/
def tick_wfail : TickInput := ⟨false, sim₀, o_allnull, false, 0⟩

/-! ## Helper lemmas -/

theorem dictGet_dictSet {α : Type} (d : Dict α) (k k' : String) (v : α) :
    dictGet (dictSet d k' v) k = if k' = k then some v else dictGet d k := by
  induction d with
  | nil => rfl
  | cons hd tl ih =>
      obtain ⟨k₀, v₀⟩ := hd
      by_cases h : k₀ = k'
      · subst h
        simp only [dictSet, if_pos rfl, dictGet]
        by_cases h2 : k₀ = k <;> simp [h2]
      · simp only [dictSet, if_neg h, dictGet, ih]
        by_cases h2 : k₀ = k
        · subst h2
          have h4 : ¬k' = k₀ := fun e => h e.symm
          simp [h4]
        · simp [h2]

theorem dictGet_isSome_dictSet {α : Type} (d : Dict α) (k k' : String) (v : α)
    (h : (dictGet d k).isSome) : (dictGet (dictSet d k' v) k).isSome := by
  rw [dictGet_dictSet]
  split <;> simp [h]

theorem rotate_logs_same (now : ℤ) (s : RotState) (h : some now = s.last_hour) :
    rotate_logs now s = (s, ⟨false, none, none⟩) := by
  simp [rotate_logs, h]

theorem rotate_logs_last_hour (now : ℤ) (s : RotState) :
    ((rotate_logs now s).1).last_hour = some now := by
  by_cases h : some now = s.last_hour
  · rw [rotate_logs_same now s h]
    exact h.symm
  · simp only [rotate_logs, if_neg h]
    split <;> split <;> rfl

theorem rotate_logs_files (now : ℤ) (s : RotState) (h : ¬some now = s.last_hour) :
    ((rotate_logs now s).1).files =
      (if now ∈ s.files then s.files else now :: s.files).filter (fun x => x ≠ now - 2) := by
  simp only [rotate_logs, if_neg h]
  split <;> split
  all_goals first
    | rfl
    | (rename_i hnot
       refine (List.filter_eq_self.mpr ?_).symm
       intro a ha
       simp only [decide_eq_true_eq]
       rintro rfl
       exact hnot ha)

/-! ## Claims -/

/-- C10: `rotate_logs` is idempotent within an hour bucket: after a first call
at hour `now`, a second call at the same hour bucket leaves the rotator state
unchanged and performs no close, open, or delete side effects. -/
theorem C10_rotate_idempotent (s : RotState) (now : ℤ) :
    rotate_logs now (rotate_logs now s).1 = ((rotate_logs now s).1, ⟨false, none, none⟩) :=
  rotate_logs_same now (rotate_logs now s).1 (rotate_logs_last_hour now s).symm

/-- C1 counterexample: starting at hour 10 with fabricated log files for hours
9, 8 and 7 (now-1, now-2, now-3) and rotating through three hour boundaries
(hours 10, 11, 12), the file for hour 7 survives: the remaining files are
those of hours 12, 11 and 7, not exactly the current and prior hour, and the
surviving hour-7 file is more than two hours old. -/
theorem C1_log_retention_counterexample :
    (run_rotations [10, 11, 12] ⟨none, none, [9, 8, 7]⟩).files = [12, 11, 7] ∧
    (7 : ℤ) ∈ (run_rotations [10, 11, 12] ⟨none, none, [9, 8, 7]⟩).files ∧
    ¬((7 : ℤ) = 12 ∨ (7 : ℤ) = 12 - 1) ∧ 12 - (7 : ℤ) > 2 := by
  decide

/-- C1 (amended): the deletion step of `rotate_logs` removes only the file
whose hour bucket is exactly two hours older than `now` — any other file,
including one three or more hours old, survives every rotation; on a clean
start the invariant "files on disk are only the tracked hour's and the
previous hour's" is established by the first rotation and preserved by every
rotation whose hour bucket is the tracked one or its successor, so with no
pre-existing files at most the current and previous hour's logs exist. -/
theorem C1_log_retention_amended :
    (∀ (s : RotState) (now h : ℤ), h ∈ s.files → h ≠ now - 2 →
        h ∈ ((rotate_logs now s).1).files) ∧
    (∀ (now : ℤ), ((rotate_logs now ⟨none, none, []⟩).1).files = [now] ∧
        rot_inv (rotate_logs now ⟨none, none, []⟩).1) ∧
    (∀ (s : RotState) (now : ℤ), rot_inv s →
        (s.last_hour = some now ∨ s.last_hour = some (now - 1)) →
        rot_inv (rotate_logs now s).1) := by
  refine ⟨?_, ?_, ?_⟩
  · intro s now h hmem hne
    by_cases hh : some now = s.last_hour
    · rw [rotate_logs_same now s hh]
      exact hmem
    · rw [rotate_logs_files now s hh]
      rw [List.mem_filter]
      constructor
      · split <;> simp [hmem]
      · simp [hne]
  · intro now
    have hfiles : ((rotate_logs now ⟨none, none, []⟩).1).files = [now] := by
      rw [rotate_logs_files now _ (by simp)]
      simp only [List.not_mem_nil, if_false, List.filter_cons, List.filter_nil]
      have : now ≠ now - 2 := by omega
      simp [this]
    refine ⟨hfiles, ?_⟩
    intro h hmem
    rw [hfiles] at hmem
    rw [List.mem_singleton] at hmem
    left
    rw [hmem, rotate_logs_last_hour]
  · intro s now hinv hlast
    rcases hlast with hlast | hlast
    · rw [rotate_logs_same now s hlast.symm]
      exact hinv
    · have hne : ¬(some now = s.last_hour) := by
        rw [hlast]
        simp only [Option.some.injEq]
        omega
      intro h hmem
      rw [rotate_logs_files now s hne, List.mem_filter] at hmem
      obtain ⟨hmem1, hne2⟩ := hmem
      have hne2' : h ≠ now - 2 := by simpa using hne2
      have hfiles : ∀ x ∈ s.files, x = now - 1 ∨ x = now - 2 := by
        intro x hx
        rcases hinv x hx with hx' | hx' <;> rw [hlast] at hx' <;>
          simp only [Option.some.injEq] at hx' <;> omega
      have hsrc : h = now ∨ h ∈ s.files := by
        split at hmem1
        · right; exact hmem1
        · rcases List.mem_cons.mp hmem1 with h' | h'
          · left; exact h'
          · right; exact h'
      have hval : h = now ∨ h = now - 1 := by
        rcases hsrc with h' | h'
        · left; exact h'
        · rcases hfiles h h' with h'' | h''
          · right; exact h''
          · exact absurd h'' hne2'
      rw [rotate_logs_last_hour]
      rcases hval with h' | h'
      · left; rw [h']
      · right
        simp only [Option.some.injEq]
        omega

/-- C1 witness: the amended theorem applied at concrete inputs — a file for
hour 5 (five hours old) survives a rotation at hour 10, and the clean-start
invariant is preserved rotating from hour 9 to hour 10 with files 9 and 8 on
disk. -/
theorem C1_log_retention_amended_witness :
    (5 : ℤ) ∈ ((rotate_logs 10 ⟨none, none, [5]⟩).1).files ∧
    rot_inv (rotate_logs 10 ⟨some 9, some 9, [9, 8]⟩).1 :=
  ⟨C1_log_retention_amended.1 ⟨none, none, [5]⟩ 10 5 (by decide) (by decide),
   C1_log_retention_amended.2.2 ⟨some 9, some 9, [9, 8]⟩ 10 (by decide)
     (Or.inr (by decide))⟩

/-- C5: validation failures never mutate state: a volume request outside
[0,100] (150 in particular) is rejected with the volume unchanged, a station
request with index `stations.length` is rejected with the station unchanged,
and in general every rejected radio or control request leaves the state
exactly as it was. -/
theorem C5_validation_atomicity :
    (∀ r : RadioState, set_radio_volume (some 150) r = (r, false)) ∧
    (∀ (r : RadioState) (v : ℤ), ¬(0 ≤ v ∧ v ≤ 100) →
        set_radio_volume (some v) r = (r, false)) ∧
    (∀ r : RadioState, set_radio_station (some (r.stations.length : ℤ)) r = (r, false)) ∧
    (∀ (r : RadioState) (st? : Option ℤ), (set_radio_station st? r).2 = false →
        (set_radio_station st? r).1 = r) ∧
    (∀ (r : RadioState) (v? : Option ℤ), (set_radio_volume v? r).2 = false →
        (set_radio_volume v? r).1 = r) ∧
    (∀ (r : RadioState) (p? : Option Bool), (set_radio_play p? r).2 = false →
        (set_radio_play p? r).1 = r) ∧
    (∀ (cs : Dict JVal) (n : String) (st? : Option JVal),
        (set_control n st? cs).2 = false → (set_control n st? cs).1 = cs) := by
  refine ⟨?_, ?_, ?_, ?_, ?_, ?_, ?_⟩
  · intro r
    simp [set_radio_volume]
  · intro r v hv
    simp [set_radio_volume, hv]
  · intro r
    simp only [set_radio_station, ite_eq_right_iff]
    intro hv
    omega
  · intro r st?
    cases st? with
    | none => intro _; rfl
    | some s =>
        simp only [set_radio_station]
        split <;> simp
  · intro r v?
    cases v? with
    | none => intro _; rfl
    | some v =>
        simp only [set_radio_volume]
        split <;> simp
  · intro r p?
    cases p? with
    | none => intro _; rfl
    | some b => simp [set_radio_play]
  · intro cs n st?
    simp only [set_control]
    split
    · cases st? with
      | none => intro _; rfl
      | some v => simp
    · intro _; rfl

/-- C5 witness: the theorem applied at the initial radio and control state —
volume 150 is rejected leaving the state intact, and a rejected control
request (unknown id) leaves the control map intact. -/
theorem C5_validation_atomicity_witness :
    set_radio_volume (some 150) radio_data₀ = (radio_data₀, false) ∧
    (set_control "sunroof" (some (.b true)) control_states₀).1 = control_states₀ :=
  ⟨C5_validation_atomicity.2.1 radio_data₀ 150 (by decide),
   C5_validation_atomicity.2.2.2.2.2.2 control_states₀ "sunroof" (some (.b true))
     (by decide)⟩

/-- C4 counterexample: the subscriber `control_change` path is not equivalent
to the POST path: for the message `{control: "light"}` with no `state` field,
the POST handler rejects and leaves the control map unchanged, while the
socket handler stores `None` into the `light` control. -/
theorem C4_subscriber_post_counterexample :
    handle_control_change (some "light") none control_states₀ ≠
      (set_control "light" none control_states₀).1 ∧
    (set_control "light" none control_states₀).2 = false ∧
    dictGet (handle_control_change (some "light") none control_states₀) "light" =
      some .null := by
  decide

/-- C4 (amended): whenever the `state` field is present, the socket
`control_change` handler performs exactly the same mutation as the POST
`set_control` path; and a single-field `radio_change` message performs exactly
the same mutation as the corresponding POST radio endpoint (station, playing
and volume, with identical validation).  The paths differ only when
`control_change` is sent without a `state` field: then the POST path rejects
without mutation while the socket path stores `None`. -/
theorem C4_subscriber_post_amended :
    (∀ (cs : Dict JVal) (n : String) (v : JVal),
        handle_control_change (some n) (some v) cs = (set_control n (some v) cs).1) ∧
    (∀ (r : RadioState) (s : ℤ),
        handle_radio_change (some s) none none r = (set_radio_station (some s) r).1) ∧
    (∀ (r : RadioState) (b : Bool),
        handle_radio_change none (some b) none r = (set_radio_play (some b) r).1) ∧
    (∀ (r : RadioState) (v : ℤ),
        handle_radio_change none none (some v) r = (set_radio_volume (some v) r).1) := by
  refine ⟨?_, ?_, ?_, ?_⟩
  · intro cs n v
    simp only [handle_control_change, set_control, Option.getD]
    split <;> rfl
  · intro r s
    simp only [handle_radio_change, set_radio_station]
    split <;> rfl
  · intro r b
    rfl
  · intro r v
    simp only [handle_radio_change, set_radio_volume]
    split <;> rfl

theorem hiTemp_ne_lowVolt : hiTempMsg ≠ lowVoltMsg := by decide

theorem hiTemp_beq_lowVolt : (hiTempMsg == lowVoltMsg) = false := by decide

theorem lowVolt_beq_hiTemp : (lowVoltMsg == hiTempMsg) = false := by decide

/-- C6: threshold alerting per fast-loop tick: for a snapshot carrying
`motor_temp` and `battery_voltage`, the tick publishes exactly one
high-temperature alert (type warning, carrying the value) iff
`motor_temp > 100` — so one for 101 and none for 99 — and exactly one
low-voltage alert carrying the value iff `battery_voltage < 12.0`; the alert
computation is a pure function of the snapshot, so the alerts are re-sent
identically on every tick for which the condition still holds. -/
theorem C6_threshold_alerting (d : Dict ℚ) (mt bv : ℚ)
    (hm : dictGet d "motor_temp" = some mt)
    (hb : dictGet d "battery_voltage" = some bv) :
    ∃ alerts, tick_alerts d = some alerts ∧
      alerts.countP (fun a => a.message == hiTempMsg) = (if mt > 100 then 1 else 0) ∧
      alerts.countP (fun a => a.message == lowVoltMsg) = (if bv < 12 then 1 else 0) ∧
      (∀ a ∈ alerts, a.type = "warning") ∧
      (∀ a ∈ alerts, a.message = hiTempMsg → a.value = mt) ∧
      (∀ a ∈ alerts, a.message = lowVoltMsg → a.value = bv) ∧
      (∀ n : ℕ, (List.replicate n d).map tick_alerts = List.replicate n (some alerts)) := by
  have h0 : tick_alerts d =
      some ((if mt > 100 then [⟨"warning", hiTempMsg, mt⟩] else []) ++
            (if bv < 12 then [⟨"warning", lowVoltMsg, bv⟩] else [])) := by
    simp [tick_alerts, hm, hb]
  refine ⟨_, h0, ?_, ?_, ?_, ?_, ?_, ?_⟩
  · by_cases h1 : mt > 100 <;> by_cases h2 : bv < 12 <;>
      simp [h1, h2, List.countP_cons, lowVolt_beq_hiTemp]
  · by_cases h1 : mt > 100 <;> by_cases h2 : bv < 12 <;>
      simp [h1, h2, List.countP_cons, hiTemp_beq_lowVolt]
  · intro a ha
    rcases List.mem_append.mp ha with h' | h' <;> split at h' <;> simp_all
  · intro a ha hmsg
    rcases List.mem_append.mp ha with h' | h' <;> split at h' <;> simp_all
    exact absurd hmsg.symm hiTemp_ne_lowVolt
  · intro a ha hmsg
    rcases List.mem_append.mp ha with h' | h' <;> split at h' <;> simp_all
    exact absurd hmsg hiTemp_ne_lowVolt
  · intro n
    rw [List.map_replicate, h0]

/-- C6 witness: the theorem applied to the concrete snapshot with
`motor_temp = 101` and `battery_voltage = 13`. -/
theorem C6_threshold_alerting_witness :
    ∃ alerts,
      tick_alerts [("motor_temp", (101 : ℚ)), ("battery_voltage", 13)] = some alerts ∧
      alerts.countP (fun a => a.message == hiTempMsg) =
        (if (101 : ℚ) > 100 then 1 else 0) ∧
      alerts.countP (fun a => a.message == lowVoltMsg) =
        (if (13 : ℚ) < 12 then 1 else 0) ∧
      (∀ a ∈ alerts, a.type = "warning") ∧
      (∀ a ∈ alerts, a.message = hiTempMsg → a.value = 101) ∧
      (∀ a ∈ alerts, a.message = lowVoltMsg → a.value = 13) ∧
      (∀ n : ℕ,
        (List.replicate n [("motor_temp", (101 : ℚ)), ("battery_voltage", 13)]).map
            tick_alerts = List.replicate n (some alerts)) :=
  C6_threshold_alerting [("motor_temp", (101 : ℚ)), ("battery_voltage", 13)] 101 13
    rfl rfl

/-- C7: unit conversions of the connected acquisition path: an intake-pressure
reading of 202 kPa yields `turbo_pressure = 2.0` (kPa to bar by division by
100, rounded to one decimal), a fuel-level reading of 55 % yields
`fuel_consumption = round(10 - 5.5, 1) = 4.5`, and a fuel-level reading of 0 %
yields `fuel_consumption = 0` (the formula applies only when the percentage is
positive). -/
theorem C7_unit_conversion :
    dictGet (get_obd_data true sim₀
        { o_allnull with intake_pressure := .val 202, fuel_level := .val 55 }
        sensor_data₀).1 "turbo_pressure" = some 2 ∧
    dictGet (get_obd_data true sim₀
        { o_allnull with intake_pressure := .val 202, fuel_level := .val 55 }
        sensor_data₀).1 "fuel_consumption" = some 4.5 ∧
    dictGet (get_obd_data true sim₀
        { o_allnull with fuel_level := .val 0 }
        sensor_data₀).1 "fuel_consumption" = some 0 := by
  refine ⟨?_, ?_, ?_⟩ <;>
  · simp +decide only [get_obd_data, obd_read, stepInt, stepTurbo, stepFuel, stepBattery,
      stepAFR, o_allnull, sensor_data₀, dictSet, dictGet, Bind.bind, Except.bind,
      reduceIte]
    try norm_num [round1, roundHalfEven, pyTrunc]

/-- C3 counterexample: with a connected diagnostic interface whose
trouble-code query returns null, `get_dtc_codes` sets the fault list to the
empty list — not to the fixed demo set of 4 canned codes the claim requires
for every null result. -/
theorem C3_dtc_fallback_counterexample :
    get_dtc_codes true none "01.01.2025 00:00" = [] ∧
    (demo_errors "01.01.2025 00:00").length = 4 ∧
    get_dtc_codes true none "01.01.2025 00:00" ≠ demo_errors "01.01.2025 00:00" := by
  refine ⟨rfl, rfl, ?_⟩
  intro h
  exact absurd (congrArg List.length h) (by decide)

/-- C3 (amended): the fixed demo set of exactly 4 canned fault codes, each
timestamped with the current sampling time, is returned only when the
diagnostic interface is unavailable; with a connected interface a null
trouble-code query result yields the empty list.  On a successful query every
raw code is mapped through the static lookup table, and a code absent from the
table gets the generic title `"Hata Kodu <raw>"` (which carries the raw code)
and the generic description; every entry carries the raw code and the current
sampling time. -/
theorem C3_dtc_fallback_amended :
    (∀ (resp : Option (List String)) (now : String),
        get_dtc_codes false resp now = demo_errors now ∧
        (demo_errors now).length = 4 ∧ ∀ fc ∈ demo_errors now, fc.time = now) ∧
    (∀ now : String, get_dtc_codes true none now = []) ∧
    (∀ (now : String) (codes : List String),
        get_dtc_codes true (some codes) now = codes.map (mkFault now)) ∧
    (∀ (now c : String), dtc_descriptions.find? (fun e => e.1 = c) = none →
        mkFault now c = ⟨c, "Hata Kodu " ++ c, "Tanımlanmamış hata kodu.", now⟩) ∧
    (∀ (now c : String), (mkFault now c).code = c ∧ (mkFault now c).time = now) := by
  refine ⟨?_, ?_, ?_, ?_, ?_⟩
  · intro resp now
    refine ⟨rfl, rfl, ?_⟩
    intro fc hfc
    simp only [demo_errors, List.mem_cons, List.not_mem_nil, or_false] at hfc
    rcases hfc with h | h | h | h <;> rw [h]
  · intro now
    rfl
  · intro now codes
    rfl
  · intro now c hnone
    simp [mkFault, dtcLookup, hnone]
  · intro now c
    exact ⟨rfl, rfl⟩

/-- C3 witness: the amended theorem applied at concrete inputs — the
disconnected fallback at a fixed time, and the generic mapping of the unknown
raw code `"P9999"`. -/
theorem C3_dtc_fallback_amended_witness :
    (get_dtc_codes false none "02.03.2025 04:05" = demo_errors "02.03.2025 04:05" ∧
      (demo_errors "02.03.2025 04:05").length = 4 ∧
      ∀ fc ∈ demo_errors "02.03.2025 04:05", fc.time = "02.03.2025 04:05") ∧
    mkFault "02.03.2025 04:05" "P9999" =
      ⟨"P9999", "Hata Kodu " ++ "P9999", "Tanımlanmamış hata kodu.", "02.03.2025 04:05"⟩ :=
  ⟨C3_dtc_fallback_amended.1 none "02.03.2025 04:05",
   C3_dtc_fallback_amended.2.2.2.1 "02.03.2025 04:05" "P9999" (by decide)⟩

/-- C2 counterexample: with a connected interface, only the air-fuel-ratio
query is wrapped in try/except, so a pass in which every channel query raises
aborts at the very first channel (rpm): the exception propagates, no channel
is read, and the snapshot keeps its previous values — in particular
`turbo_pressure` stays 1.2 instead of the claimed fallback 0. -/
theorem C2_fallback_counterexample :
    get_obd_data true sim₀ o_allerr sensor_data₀ = (sensor_data₀, true) ∧
    dictGet sensor_data₀ "turbo_pressure" = some 1.2 ∧ (1.2 : ℚ) ≠ 0 :=
  ⟨rfl, rfl, by norm_num⟩

/-- C2 (amended): with a connected interface, when every channel query reports
no data (null response, no exception), the snapshot gets the per-channel
fallbacks: `air_fuel_ratio = 14.7` and all other affected fields 0; an
exception raised by the air-fuel-ratio query alone is caught and is
indistinguishable from its null response (the other channels are still read);
but an exception raised on any other channel (rpm in particular) propagates
uncaught, aborting the pass so that the remaining channels are not read and
keep their previous values. -/
theorem C2_fallback_amended :
    (∀ (sim : SimRands) (d : Dict ℚ),
        (get_obd_data true sim o_allnull d).2 = false ∧
        dictGet (get_obd_data true sim o_allnull d).1 "air_fuel_ratio" = some 14.7 ∧
        dictGet (get_obd_data true sim o_allnull d).1 "rpm" = some 0 ∧
        dictGet (get_obd_data true sim o_allnull d).1 "speed" = some 0 ∧
        dictGet (get_obd_data true sim o_allnull d).1 "motor_load" = some 0 ∧
        dictGet (get_obd_data true sim o_allnull d).1 "motor_temp" = some 0 ∧
        dictGet (get_obd_data true sim o_allnull d).1 "oil_temp" = some 0 ∧
        dictGet (get_obd_data true sim o_allnull d).1 "turbo_pressure" = some 0 ∧
        dictGet (get_obd_data true sim o_allnull d).1 "fuel_consumption" = some 0 ∧
        dictGet (get_obd_data true sim o_allnull d).1 "battery_voltage" = some 0) ∧
    (∀ (sim : SimRands) (d : Dict ℚ),
        get_obd_data true sim { o_allnull with air_fuel_ratio := .err } d =
          get_obd_data true sim o_allnull d) ∧
    (∀ (sim : SimRands) (d : Dict ℚ) (o : OBDOutcomes), o.rpm = .err →
        get_obd_data true sim o d = (d, true)) := by
  refine ⟨?_, ?_, ?_⟩
  · intro sim d
    refine ⟨rfl, ?_, ?_, ?_, ?_, ?_, ?_, ?_, ?_, ?_⟩ <;>
      simp +decide only [get_obd_data, obd_read, stepInt, stepTurbo, stepFuel, stepBattery,
        stepAFR, o_allnull, Bind.bind, Except.bind, Pure.pure, Except.pure,
        dictGet_dictSet, reduceIte]
  · intro sim d
    rfl
  · intro sim d o ho
    simp only [get_obd_data, obd_read, stepInt, ho, Bind.bind, Except.bind, if_true]

/-- C2 witness: the amended theorem applied at the initial snapshot — the
all-null pass does not raise, and the all-error pass (rpm raises first)
returns the snapshot unchanged with the exception propagating. -/
theorem C2_fallback_amended_witness :
    (get_obd_data true sim₀ o_allnull sensor_data₀).2 = false ∧
    get_obd_data true sim₀ o_allerr sensor_data₀ = (sensor_data₀, true) :=
  ⟨(C2_fallback_amended.1 sim₀ sensor_data₀).1,
   C2_fallback_amended.2.2 sim₀ sensor_data₀ o_allerr rfl⟩

theorem allSome_bind {k : String} {r : ObdRes} {f : Dict ℚ → ObdRes}
    (hr : allSome k r) (hf : ∀ d, (dictGet d k).isSome → allSome k (f d)) :
    allSome k (r >>= f) := by
  cases r with
  | ok d => exact hf d hr
  | error d => exact hr

theorem allSome_stepInt (k k' : String) (o : QueryOutcome) (d : Dict ℚ)
    (h : (dictGet d k).isSome) : allSome k (stepInt k' o d) := by
  cases o with
  | err => exact h
  | null => exact dictGet_isSome_dictSet d k k' 0 h
  | val v => exact dictGet_isSome_dictSet d k k' _ h

theorem allSome_stepTurbo (k : String) (o : QueryOutcome) (d : Dict ℚ)
    (h : (dictGet d k).isSome) : allSome k (stepTurbo o d) := by
  cases o with
  | err => exact h
  | null => exact dictGet_isSome_dictSet d k _ 0 h
  | val v => exact dictGet_isSome_dictSet d k _ _ h

theorem allSome_stepFuel (k : String) (o : QueryOutcome) (d : Dict ℚ)
    (h : (dictGet d k).isSome) : allSome k (stepFuel o d) := by
  cases o with
  | err => exact h
  | null => exact dictGet_isSome_dictSet d k _ 0 h
  | val v => exact dictGet_isSome_dictSet d k _ _ h

theorem allSome_stepBattery (k : String) (o : QueryOutcome) (d : Dict ℚ)
    (h : (dictGet d k).isSome) : allSome k (stepBattery o d) := by
  cases o with
  | err => exact h
  | null => exact dictGet_isSome_dictSet d k _ 0 h
  | val v => exact dictGet_isSome_dictSet d k _ _ h

theorem isSome_stepAFR (k : String) (o : QueryOutcome) (d : Dict ℚ)
    (h : (dictGet d k).isSome) : (dictGet (stepAFR o d) k).isSome := by
  cases o with
  | err => exact dictGet_isSome_dictSet d k _ _ h
  | null => exact dictGet_isSome_dictSet d k _ _ h
  | val v => exact dictGet_isSome_dictSet d k _ _ h

theorem allSome_obd_read (o : OBDOutcomes) (d : Dict ℚ) (k : String)
    (h : (dictGet d k).isSome) : allSome k (obd_read o d) := by
  refine allSome_bind (allSome_stepInt k _ _ _ h) (fun d1 h1 => ?_)
  refine allSome_bind (allSome_stepInt k _ _ _ h1) (fun d2 h2 => ?_)
  refine allSome_bind (allSome_stepInt k _ _ _ h2) (fun d3 h3 => ?_)
  refine allSome_bind (allSome_stepInt k _ _ _ h3) (fun d4 h4 => ?_)
  refine allSome_bind (allSome_stepInt k _ _ _ h4) (fun d5 h5 => ?_)
  refine allSome_bind (allSome_stepTurbo k _ _ h5) (fun d6 h6 => ?_)
  refine allSome_bind (allSome_stepFuel k _ _ h6) (fun d7 h7 => ?_)
  refine allSome_bind (allSome_stepBattery k _ _ h7) (fun d8 h8 => ?_)
  exact isSome_stepAFR k _ _ h8

theorem isSome_simulate (r : SimRands) (d : Dict ℚ) (k : String)
    (h : (dictGet d k).isSome) : (dictGet (simulate_obd_data r d) k).isSome := by
  simp only [simulate_obd_data]
  repeat apply dictGet_isSome_dictSet
  exact h

theorem get_obd_data_preserves_isSome (connected : Bool) (sim : SimRands)
    (o : OBDOutcomes) (d : Dict ℚ) (k : String) (h : (dictGet d k).isSome) :
    (dictGet (get_obd_data connected sim o d).1 k).isSome := by
  cases connected with
  | false => exact isSome_simulate sim d k h
  | true =>
      have hr := allSome_obd_read o d k h
      simp only [get_obd_data, if_true]
      cases hc : obd_read o d with
      | ok d' =>
          rw [hc] at hr
          exact hr
      | error d' =>
          rw [hc] at hr
          exact hr

/-- C9: snapshot completeness: after any sequence of sampling passes starting
from the initial snapshot — connected or simulated, and for every combination
of per-channel query outcomes, including passes aborted by an uncaught
exception — the `sensor_data` dict still binds every one of the 9 channel ids
to a (rational, hence numeric, never null) value. -/
theorem C9_snapshot_completeness (ps : List (Bool × SimRands × OBDOutcomes))
    (k : String) (hk : k ∈ channel_ids) :
    (dictGet (run_passes ps sensor_data₀) k).isSome := by
  have base : (dictGet sensor_data₀ k).isSome := by
    fin_cases hk <;> rfl
  suffices h : ∀ d : Dict ℚ, (dictGet d k).isSome →
      (dictGet (run_passes ps d) k).isSome from h _ base
  intro d hd
  induction ps generalizing d with
  | nil => exact hd
  | cons p rest ih =>
      exact ih _ (get_obd_data_preserves_isSome p.1 p.2.1 p.2.2 d k hd)

/-- C9 witness: the theorem applied to a single connected pass in which every
query raises (the pass aborts at the first channel), for the channel
`turbo_pressure`. -/
theorem C9_snapshot_completeness_witness :
    (dictGet (run_passes [(true, sim₀, o_allerr)] sensor_data₀) "turbo_pressure").isSome :=
  C9_snapshot_completeness [(true, sim₀, o_allerr)] "turbo_pressure" (by decide)

/-- C8 counterexample: a transient write failure on an individual log entry is
not skipped: the telemetry loop body has no exception handler, so the write
failure on the first tick propagates and terminates the loop — the second tick
never runs (0 iterations complete, not the 2 the claim requires). -/
theorem C8_loop_resilience_counterexample :
    update_sensors_loop [tick_wfail, tick_ok] sensor_data₀ ⟨none, none, []⟩ = 0 ∧
    (0 : ℕ) ≠ 2 :=
  ⟨rfl, by decide⟩

theorem stepInt_ok (k : String) (o : QueryOutcome) (d : Dict ℚ) (h : o ≠ .err) :
    ∃ d', stepInt k o d = .ok d' := by
  cases o with
  | err => exact absurd rfl h
  | null => exact ⟨_, rfl⟩
  | val v => exact ⟨_, rfl⟩

theorem stepTurbo_ok (o : QueryOutcome) (d : Dict ℚ) (h : o ≠ .err) :
    ∃ d', stepTurbo o d = .ok d' := by
  cases o with
  | err => exact absurd rfl h
  | null => exact ⟨_, rfl⟩
  | val v => exact ⟨_, rfl⟩

theorem stepFuel_ok (o : QueryOutcome) (d : Dict ℚ) (h : o ≠ .err) :
    ∃ d', stepFuel o d = .ok d' := by
  cases o with
  | err => exact absurd rfl h
  | null => exact ⟨_, rfl⟩
  | val v => exact ⟨_, rfl⟩

theorem stepBattery_ok (o : QueryOutcome) (d : Dict ℚ) (h : o ≠ .err) :
    ∃ d', stepBattery o d = .ok d' := by
  cases o with
  | err => exact absurd rfl h
  | null => exact ⟨_, rfl⟩
  | val v => exact ⟨_, rfl⟩

theorem obd_read_ok (o : OBDOutcomes) (d : Dict ℚ) (h : obd_ok o) :
    ∃ d', obd_read o d = .ok d' := by
  obtain ⟨h1, h2, h3, h4, h5, h6, h7, h8⟩ := h
  obtain ⟨d1, e1⟩ := stepInt_ok "rpm" o.rpm d h1
  obtain ⟨d2, e2⟩ := stepInt_ok "speed" o.speed d1 h2
  obtain ⟨d3, e3⟩ := stepInt_ok "motor_load" o.motor_load d2 h3
  obtain ⟨d4, e4⟩ := stepInt_ok "motor_temp" o.motor_temp d3 h4
  obtain ⟨d5, e5⟩ := stepInt_ok "oil_temp" o.oil_temp d4 h5
  obtain ⟨d6, e6⟩ := stepTurbo_ok o.intake_pressure d5 h6
  obtain ⟨d7, e7⟩ := stepFuel_ok o.fuel_level d6 h7
  obtain ⟨d8, e8⟩ := stepBattery_ok o.battery_voltage d7 h8
  refine ⟨stepAFR o.air_fuel_ratio d8, ?_⟩
  simp only [obd_read, Bind.bind, Except.bind, Pure.pure, Except.pure,
    e1, e2, e3, e4, e5, e6, e7, e8]

theorem get_obd_data_no_raise (conn : Bool) (sim : SimRands) (o : OBDOutcomes)
    (d : Dict ℚ) (h : conn = true → obd_ok o) :
    (get_obd_data conn sim o d).2 = false := by
  cases conn with
  | false => rfl
  | true =>
      obtain ⟨d', hd'⟩ := obd_read_ok o d (h rfl)
      simp only [get_obd_data, if_true, hd']

theorem log_sensor_data_no_raise (now : ℤ) (s : RotState) :
    (log_sensor_data true now s).2 = false := by
  simp only [log_sensor_data]
  split <;> rfl

theorem update_sensors_iter_no_raise (i : TickInput) (d : Dict ℚ) (s : RotState)
    (h1 : i.connected = true → obd_ok i.o) (h2 : i.write_ok = true) :
    (update_sensors_iter i d s).2.2 = false := by
  simp only [update_sensors_iter, get_obd_data_no_raise i.connected i.sim i.o d h1,
    h2, log_sensor_data_no_raise, Bool.false_eq_true, if_false]

/-- C8 (amended): the telemetry loop body contains no exception handling, so
any uncaught exception in an iteration — an acquisition-channel raise or a log
write failure included — propagates out of the loop body and terminates the
loop (which runs on a daemon thread): no later tick ever runs.  Conversely,
when no iteration raises (every log write succeeds and, when connected, no
try-unprotected channel query raises), the loop completes every scheduled
tick. -/
theorem C8_loop_resilience_amended :
    (∀ (inputs : List TickInput) (d : Dict ℚ) (s : RotState),
        (∀ i ∈ inputs, i.write_ok = true ∧ (i.connected = true → obd_ok i.o)) →
        update_sensors_loop inputs d s = inputs.length) ∧
    (∀ (i : TickInput) (rest : List TickInput) (d : Dict ℚ) (s : RotState),
        (update_sensors_iter i d s).2.2 = true →
        update_sensors_loop (i :: rest) d s = 0) := by
  constructor
  · intro inputs
    induction inputs with
    | nil => intro d s _; rfl
    | cons i rest ih =>
        intro d s h
        have hi := h i (List.mem_cons_self i rest)
        have hnr := update_sensors_iter_no_raise i d s hi.2 hi.1
        simp only [update_sensors_loop, hnr, Bool.false_eq_true, if_false,
          List.length_cons]
        rw [ih _ _ (fun j hj => h j (List.mem_cons_of_mem i hj))]
        omega
  · intro i rest d s hr
    simp only [update_sensors_loop, hr, if_true]

/-- C8 witness: the amended theorem applied at concrete inputs — one
successful simulated tick completes (1 iteration), and a first tick whose log
write raises terminates the loop at once (0 iterations). -/
theorem C8_loop_resilience_amended_witness :
    update_sensors_loop [tick_ok] sensor_data₀ ⟨none, none, []⟩ = 1 ∧
    update_sensors_loop [tick_wfail, tick_ok] sensor_data₀ ⟨none, none, []⟩ = 0 :=
  ⟨C8_loop_resilience_amended.1 [tick_ok] sensor_data₀ ⟨none, none, []⟩ (by decide),
   C8_loop_resilience_amended.2 tick_wfail [tick_ok] sensor_data₀ ⟨none, none, []⟩
     rfl⟩

end CCPanel
